import Mathlib

/-!
Shallow embedding of the identity-lifecycle engine of ulfredoc/comercial-bss
(src/modules/auth/auth.service.ts and src/modules/auth/entities/user.entity.ts),
together with theorems settling the specification claims about it.

The user directory (TypeORM repository) is modelled as a `List User`;
`findOne` on a where-clause is `List.find?` with the corresponding exact-match
predicate, and `save` is an upsert keyed by `id`.  Randomness (`Math.random`)
is modelled by passing the sampled values explicitly.  JavaScript `null` on
string columns that the service only ever tests with truthiness (`googleId`,
`picture`) is modelled as the empty string, since JS `||` treats `null` and
`""` alike; `verificationCode`, whose `null` is distinguished from `""` by the
exact-match lookups, is an `Option String`.
-/

namespace BSS

/-- The User entity (user.entity.ts).  `lastLogin` is a nullable timestamp. -/
structure User where
  id : Nat
  username : String
  cpf : String
  fullName : String
  email : String
  phone : String
  password : String
  verificationCode : Option String
  isVerified : Bool
  isActive : Bool
  lastLogin : Option Nat
  googleId : String
  picture : String
  isGoogleUser : Bool
deriving Repr, DecidableEq

/-- Columns declared with a uniqueness constraint in user.entity.ts:
only `cpf` and `email` carry `unique: true`; `phone` does not. -/
def uniqueColumns : List String := ["cpf", "email"]

/-- Errors thrown by the service: ConflictException and NotFoundException. -/
inductive AuthError where
  | conflict (msg : String)
  | notFound (msg : String)
deriving Repr, DecidableEq

/-- Mail-service calls observable from the auth service. -/
inductive Notification where
  | userConfirmation (email code : String)
  | passwordReset (email code : String)
  | googleWelcome (email : String)
deriving Repr, DecidableEq

/-- Outcome of a service operation: the returned value or thrown error,
the directory after the operation, and the notifications sent. -/
structure OpOutcome (α : Type) where
  result : Except AuthError α
  db : List User
  sent : List Notification

/-- findOne where email. -/
def findByEmail (db : List User) (email : String) : Option User :=
  db.find? (fun u => u.email == email)

/-- findOne where cpf. -/
def findByCpf (db : List User) (cpf : String) : Option User :=
  db.find? (fun u => u.cpf == cpf)

/-- findOne where phone. -/
def findByPhone (db : List User) (phone : String) : Option User :=
  db.find? (fun u => u.phone == phone)

/-- findOne where email and verificationCode (the exact-pair lookup used by
verifyCode and resetPassword). -/
def findByEmailAndCode (db : List User) (email code : String) : Option User :=
  db.find? (fun u => u.email == email && u.verificationCode == some code)

/-- Repository save: update in place when a record with the same id exists,
insert otherwise. -/
def saveUser (db : List User) (u : User) : List User :=
  if db.any (fun v => v.id == u.id) then
    db.map (fun v => if v.id == u.id then u else v)
  else
    db ++ [u]

/-- The 6-digit code generator, `Math.floor(100000 + Math.random() * 900000)
.toString()`; `r` stands for the sampled `Math.floor(Math.random() * 900000)`,
hence `r < 900000` wherever the sampling is taken into account. -/
def genSixDigitCode (r : Nat) : String := Nat.repr (100000 + r)

/-- RegisterDto (register.dto.ts); the optional `username` is modelled as a
string with `""` for absent, matching the JS truthiness test applied to it. -/
structure RegisterDto where
  username : String
  email : String
  password : String
  cpf : String
  fullName : String
  phone : String
deriving Repr, DecidableEq

/-- The success payload of register. -/
structure RegisterOk where
  success : Bool
  message : String
  email : String
deriving Repr, DecidableEq

/-- The `success`/`message` payload returned by verify/forgot/reset/update. -/
structure SimpleOk where
  success : Bool
  message : String
deriving Repr, DecidableEq

/-- `fullName.split(' ')[0]`. -/
def firstNameToken (fullName : String) : String :=
  (fullName.splitOn " ").headD ""

/-- register (auth.service.ts 77-115): email-uniqueness check, cpf-uniqueness
check, 6-digit code generation, creation in unverified/inactive state, save,
confirmation mail.  `newId` is the id the storage layer generates. -/
def register (db : List User) (dto : RegisterDto) (r : Nat) (newId : Nat) :
    OpOutcome RegisterOk :=
  match findByEmail db dto.email with
  | some _ => ⟨.error (.conflict "Email já cadastrado"), db, []⟩
  | none =>
    match findByCpf db dto.cpf with
    | some _ => ⟨.error (.conflict "CPF já cadastrado"), db, []⟩
    | none =>
      let verificationCode := genSixDigitCode r
      let u : User :=
        { id := newId
          username := if dto.username == "" then firstNameToken dto.fullName
                      else dto.username
          cpf := dto.cpf
          fullName := dto.fullName
          email := dto.email
          phone := dto.phone
          password := dto.password
          verificationCode := some verificationCode
          isVerified := false
          isActive := false
          lastLogin := none
          googleId := ""
          picture := ""
          isGoogleUser := false }
      ⟨.ok ⟨true, "Por favor, verifique seu email para ativar sua conta", dto.email⟩,
        saveUser db u, [.userConfirmation dto.email verificationCode]⟩

/-- login (auth.service.ts 117-133): `null` for a missing email, Conflict for
an unverified user, the user otherwise.  The password argument is accepted but
not consulted, exactly as in the source. -/
def login (db : List User) (email password : String) :
    Except AuthError (Option User) :=
  match findByEmail db email with
  | none => .ok none
  | some u =>
    if !u.isVerified then
      .error (.conflict "Por favor, verifique seu email antes de fazer login")
    else
      .ok (some u)

/-- verifyCode (auth.service.ts 139-162): exact (email, verificationCode)
lookup; on a match set isVerified/isActive and null the code, then save. -/
def verifyCode (db : List User) (email code : String) : OpOutcome SimpleOk :=
  match findByEmailAndCode db email code with
  | none => ⟨.error (.conflict "Código de verificação inválido"), db, []⟩
  | some u =>
    let u2 := { u with isVerified := true, isActive := true,
                       verificationCode := none }
    ⟨.ok ⟨true, "Conta ativada com sucesso"⟩, saveUser db u2, []⟩

/-- forgotPassword (auth.service.ts 164-183): requires the email to exist,
stores a fresh 6-digit code, saves, sends the reset mail. -/
def forgotPassword (db : List User) (email : String) (r : Nat) :
    OpOutcome SimpleOk :=
  match findByEmail db email with
  | none => ⟨.error (.conflict "Email não encontrado"), db, []⟩
  | some u =>
    let resetCode := genSixDigitCode r
    let u2 := { u with verificationCode := some resetCode }
    ⟨.ok ⟨true, "Enviamos um código de recuperação para seu email"⟩,
      saveUser db u2, [.passwordReset email resetCode]⟩

/-- resetPassword (auth.service.ts 185-206): exact (email, verificationCode)
lookup; on a match overwrite the password and set the code to the empty
string (not null), then save. -/
def resetPassword (db : List User) (email code newPassword : String) :
    OpOutcome SimpleOk :=
  match findByEmailAndCode db email code with
  | none => ⟨.error (.conflict "Código inválido"), db, []⟩
  | some u =>
    let u2 := { u with password := newPassword, verificationCode := some "" }
    ⟨.ok ⟨true, "Senha atualizada com sucesso"⟩, saveUser db u2, []⟩

/-- validateGoogleUser, merge part (auth.service.ts 316-355), after the
profile-shape extraction has produced email, fullName, picture and googleId.
Existing user: spread-update of lastLogin, picture (JS: picture or kept),
isGoogleUser, googleId (JS: kept or incoming), everything else untouched and
no mail.  No user: create verified/active with empty cpf/phone/password,
username from the email local-part, then send the welcome mail. -/
def validateGoogleUser (db : List User)
    (email fullName picture googleId : String) (now newId : Nat) :
    OpOutcome User :=
  match findByEmail db email with
  | some u =>
    let u2 := { u with
      lastLogin := some now
      picture := if picture == "" then u.picture else picture
      isGoogleUser := true
      googleId := if u.googleId == "" then googleId else u.googleId }
    ⟨.ok u2, saveUser db u2, []⟩
  | none =>
    let u : User :=
      { id := newId
        username := (email.splitOn "@").headD ""
        cpf := ""
        fullName := fullName
        email := email
        phone := ""
        password := ""
        verificationCode := none
        isVerified := true
        isActive := true
        lastLogin := some now
        googleId := googleId
        picture := picture
        isGoogleUser := true }
    ⟨.ok u, saveUser db u, [.googleWelcome email]⟩

/-- updateGoogleData (auth.service.ts 418-455): find by email (NotFound when
absent); when the cpf changes, check it against other users; overwrite cpf and
phone and save.  No check of any kind on phone. -/
def updateGoogleData (db : List User) (email cpf phone : String) :
    OpOutcome SimpleOk :=
  match findByEmail db email with
  | none => ⟨.error (.notFound "Usuario no encontrado"), db, []⟩
  | some u =>
    let cpfConflict :=
      if cpf != u.cpf then
        match findByCpf db cpf with
        | some other => other.id != u.id
        | none => false
      else false
    if cpfConflict then ⟨.error (.conflict "CPF já cadastrado"), db, []⟩
    else
      let u2 := { u with cpf := cpf, phone := phone }
      ⟨.ok ⟨true, "Datos actualizados correctamente"⟩, saveUser db u2, []⟩

/-- JS String.prototype.padStart with a pad character. -/
def padStart (s : String) (len : Nat) (c : Char) : String :=
  String.mk (List.replicate (len - s.length) c) ++ s

/-- One CPF candidate (auth.service.ts 33-37): three 3-digit zero-padded
groups and one 2-digit group; each component of the tuple is the sampled
`Math.floor(Math.random() * bound)` value. -/
def cpfCandidate (t : Nat × Nat × Nat × Nat) : String :=
  padStart (Nat.repr (t.1 % 1000)) 3 '0' ++
  padStart (Nat.repr (t.2.1 % 1000)) 3 '0' ++
  padStart (Nat.repr (t.2.2.1 % 1000)) 3 '0' ++
  padStart (Nat.repr (t.2.2.2 % 100)) 2 '0'

/-- One phone candidate (auth.service.ts 61): `+55` followed by
`Math.floor(10000000000 + Math.random() * 90000000000)`. -/
def phoneCandidate (r : Nat) : String :=
  "+55" ++ Nat.repr (10000000000 + r % 90000000000)

/-- The `while (attempts < maxAttempts)` retry loop shared by the two unique
generators; `remaining` is `maxAttempts - attempts`.  Returns the outcome
together with the number of directory lookups performed. -/
def uniqueLoop (lookup : String → Option User) (cand : Nat → String)
    (errMsg : String) : Nat → Nat → Except AuthError String × Nat
  | _, 0 => (.error (.conflict errMsg), 0)
  | attempts, remaining + 1 =>
    let c := cand attempts
    match lookup c with
    | none => (.ok c, 1)
    | some _ =>
      let p := uniqueLoop lookup cand errMsg (attempts + 1) remaining
      (p.1, p.2 + 1)

/-- generateUniqueCpf (auth.service.ts 27-52): up to 10 attempts, each drawing
a candidate from the random stream and looking it up by cpf. -/
def generateUniqueCpf (db : List User) (rnd : Nat → Nat × Nat × Nat × Nat) :
    Except AuthError String × Nat :=
  uniqueLoop (findByCpf db) (fun i => cpfCandidate (rnd i))
    "No se pudo generar un CPF único después de varios intentos" 0 10

/-- generateUniquePhone (auth.service.ts 55-76): up to 10 attempts, each
drawing a candidate from the random stream and looking it up by phone. -/
def generateUniquePhone (db : List User) (rnd : Nat → Nat) :
    Except AuthError String × Nat :=
  uniqueLoop (findByPhone db) (fun i => phoneCandidate (rnd i))
    "No se pudo generar un teléfono único después de varios intentos" 0 10

/-- Directory well-formedness: ids and emails are pairwise distinct (both are
primary/unique columns of the entity). -/
def WF (db : List User) : Prop :=
  (db.map (fun u => u.id)).Nodup ∧ (db.map (fun u => u.email)).Nodup

instance (db : List User) : Decidable (WF db) := by
  unfold WF; infer_instance

/-- No two distinct users share a non-empty phone value (the phone-uniqueness
property of claim C8). -/
def PhoneUniqueOK (db : List User) : Prop :=
  ∀ u ∈ db, ∀ v ∈ db, u.id ≠ v.id → u.phone ≠ "" → u.phone ≠ v.phone

instance (db : List User) : Decidable (PhoneUniqueOK db) := by
  unfold PhoneUniqueOK; infer_instance

/-- The decimal regular expression of the spec: a string matches
`[0-9]` six times exactly. -/
def isSixDigitString (s : String) : Bool :=
  s.length == 6 && s.data.all Char.isDigit

/-! ### Characterisation of `Nat.repr` via a structural digit list -/

/-- Decimal digit characters of `n`, most significant first; a structural
reference implementation used to reason about `Nat.repr`. -/
def decDigits (n : Nat) : List Char :=
  if n < 10 then [Nat.digitChar n]
  else decDigits (n / 10) ++ [Nat.digitChar (n % 10)]
termination_by n
decreasing_by exact Nat.div_lt_self (by omega) (by omega)

theorem toDigitsCore_eq_decDigits :
    ∀ (fuel n : Nat) (ds : List Char), 0 < fuel → n < 10 ^ fuel →
      Nat.toDigitsCore 10 fuel n ds = decDigits n ++ ds := by
  intro fuel
  induction fuel with
  | zero => intro n ds h; omega
  | succ f ih =>
    intro n ds _ hlt
    simp only [Nat.toDigitsCore]
    by_cases hz : n / 10 = 0
    · have hn : n < 10 := by omega
      rw [if_pos hz, decDigits, if_pos hn, Nat.mod_eq_of_lt hn]
      simp
    · have hn : ¬ n < 10 := by
        intro hc
        exact hz (Nat.div_eq_of_lt hc)
      have hfpos : 0 < f := by
        by_contra hf
        have : f = 0 := by omega
        subst this
        simp [Nat.pow_succ, Nat.pow_zero] at hlt
        exact hz (Nat.div_eq_of_lt hlt)
      have hdiv : n / 10 < 10 ^ f := by
        apply (Nat.div_lt_iff_lt_mul (by omega : 0 < 10)).mpr
        calc n < 10 ^ (f + 1) := hlt
        _ = 10 ^ f * 10 := by rw [Nat.pow_succ]
      rw [if_neg hz, ih (n / 10) (Nat.digitChar (n % 10) :: ds) hfpos hdiv]
      conv_rhs => rw [decDigits, if_neg hn]
      simp

theorem repr_eq_decDigits (n : Nat) : Nat.repr n = (decDigits n).asString := by
  have h1 : n < 10 ^ (n + 1) := by
    calc n < 10 ^ n := Nat.lt_pow_self (by omega) n
    _ ≤ 10 ^ (n + 1) := Nat.pow_le_pow_right (by omega) (by omega)
  rw [Nat.repr, Nat.toDigits, toDigitsCore_eq_decDigits (n + 1) n [] (by omega) h1]
  simp

theorem decDigits_length :
    ∀ (k n : Nat), 10 ^ k ≤ n → n < 10 ^ (k + 1) →
      (decDigits n).length = k + 1 := by
  intro k
  induction k with
  | zero =>
    intro n _ h2
    simp only [Nat.pow_succ, Nat.pow_zero, Nat.one_mul] at h2
    rw [decDigits, if_pos h2]
    rfl
  | succ k ih =>
    intro n h1 h2
    have hn : ¬ n < 10 := by
      have : 10 ≤ 10 ^ (k + 1) := by
        calc (10 : Nat) = 10 ^ 1 := (Nat.pow_one 10).symm
        _ ≤ 10 ^ (k + 1) := Nat.pow_le_pow_right (by omega) (by omega)
      omega
    rw [decDigits, if_neg hn]
    have hlow : 10 ^ k ≤ n / 10 := by
      apply (Nat.le_div_iff_mul_le (by omega : 0 < 10)).mpr
      calc 10 ^ k * 10 = 10 ^ (k + 1) := (Nat.pow_succ 10 k).symm
      _ ≤ n := h1
    have hhigh : n / 10 < 10 ^ (k + 1) := by
      apply (Nat.div_lt_iff_lt_mul (by omega : 0 < 10)).mpr
      calc n < 10 ^ (k + 2) := h2
      _ = 10 ^ (k + 1) * 10 := by rw [Nat.pow_succ]
    rw [List.length_append, ih (n / 10) hlow hhigh]
    rfl

theorem digitChar_isDigit : ∀ m : Nat, m < 10 → (Nat.digitChar m).isDigit = true := by
  decide

theorem decDigits_all_isDigit (n : Nat) :
    ∀ c ∈ decDigits n, c.isDigit = true := by
  induction n using Nat.strong_induction_on with
  | _ n ih =>
    intro c hc
    rw [decDigits] at hc
    by_cases hn : n < 10
    · rw [if_pos hn] at hc
      simp only [List.mem_singleton] at hc
      subst hc
      exact digitChar_isDigit n hn
    · rw [if_neg hn] at hc
      rcases List.mem_append.mp hc with h | h
      · exact ih (n / 10) (Nat.div_lt_self (by omega) (by omega)) c h
      · simp only [List.mem_singleton] at h
        subst h
        exact digitChar_isDigit (n % 10) (Nat.mod_lt n (by omega))

theorem isSixDigitString_repr (m : Nat) (h1 : 100000 ≤ m) (h2 : m ≤ 999999) :
    isSixDigitString (Nat.repr m) = true := by
  rw [repr_eq_decDigits]
  have hlen : (decDigits m).length = 6 := by
    have := decDigits_length 5 m (by omega) (by omega)
    omega
  simp only [isSixDigitString, Bool.and_eq_true, beq_iff_eq, List.all_eq_true]
  constructor
  · simp [List.asString, hlen]
  · intro c hc
    have hc2 : c ∈ decDigits m := by
      simpa [List.asString] using hc
    exact decDigits_all_isDigit m c hc2

/-! ### Directory lemmas: lookups and saves -/

theorem email_inj {db : List User} (hwf : WF db) {u v : User}
    (hu : u ∈ db) (hv : v ∈ db) (he : u.email = v.email) : u = v :=
  List.inj_on_of_nodup_map hwf.2 hu hv he

theorem id_inj {db : List User} (hwf : WF db) {u v : User}
    (hu : u ∈ db) (hv : v ∈ db) (he : u.id = v.id) : u = v :=
  List.inj_on_of_nodup_map hwf.1 hu hv he

theorem find_first (p : User → Bool) (db : List User)
    (hex : ∃ u ∈ db, p u) : ∃ v, db.find? p = some v ∧ v ∈ db ∧ p v := by
  match h : db.find? p with
  | some v => exact ⟨v, rfl, List.mem_of_find?_eq_some h, List.find?_some h⟩
  | none =>
    rw [List.find?_eq_none] at h
    obtain ⟨u, hu, hp⟩ := hex
    exact absurd hp (h u hu)

theorem findByEmail_none {db : List User} {email : String}
    (h : ∀ u ∈ db, u.email ≠ email) : findByEmail db email = none := by
  rw [findByEmail, List.find?_eq_none]
  intro u hu
  simpa using h u hu

theorem findByEmail_some {db : List User} (hwf : WF db) {u : User}
    {email : String} (hu : u ∈ db) (he : u.email = email) :
    findByEmail db email = some u := by
  obtain ⟨v, hfind, hvmem, hvp⟩ :=
    find_first (fun w => w.email == email) db ⟨u, hu, by simp [he]⟩
  have hveq : v.email = email := by simpa using hvp
  have : v = u := email_inj hwf hvmem hu (hveq.trans he.symm)
  rw [findByEmail, hfind, this]

theorem findByCpf_none {db : List User} {cpf : String}
    (h : ∀ u ∈ db, u.cpf ≠ cpf) : findByCpf db cpf = none := by
  rw [findByCpf, List.find?_eq_none]
  intro u hu
  simpa using h u hu

theorem findByEmailAndCode_none {db : List User} {email code : String}
    (h : ∀ u ∈ db, ¬(u.email = email ∧ u.verificationCode = some code)) :
    findByEmailAndCode db email code = none := by
  rw [findByEmailAndCode, List.find?_eq_none]
  intro u hu
  simpa using h u hu

theorem findByEmailAndCode_some {db : List User} (hwf : WF db) {u : User}
    {email code : String} (hu : u ∈ db) (he : u.email = email)
    (hc : u.verificationCode = some code) :
    findByEmailAndCode db email code = some u := by
  obtain ⟨v, hfind, hvmem, hvp⟩ :=
    find_first (fun w => w.email == email && w.verificationCode == some code)
      db ⟨u, hu, by simp [he, hc]⟩
  have hveq : v.email = email := by
    have := (Bool.and_eq_true _ _).mp hvp
    simpa using this.1
  have : v = u := email_inj hwf hvmem hu (hveq.trans he.symm)
  rw [findByEmailAndCode, hfind, this]

theorem saveUser_update {db : List User} {u u2 : User}
    (hu : u ∈ db) (hid : u2.id = u.id) :
    saveUser db u2 = db.map (fun v => if v.id == u2.id then u2 else v) := by
  unfold saveUser
  rw [if_pos]
  exact List.any_eq_true.mpr ⟨u, hu, by simp [hid]⟩

theorem mem_saveUser_self {db : List User} {u u2 : User}
    (hu : u ∈ db) (hid : u2.id = u.id) : u2 ∈ saveUser db u2 := by
  rw [saveUser_update hu hid]
  exact List.mem_map.mpr ⟨u, hu, by simp [hid]⟩

theorem mem_saveUser_other {db : List User} {u2 v : User}
    (hv : v ∈ db) (hne : v.id ≠ u2.id) : v ∈ saveUser db u2 := by
  unfold saveUser
  split
  · exact List.mem_map.mpr ⟨v, hv, by simp [hne]⟩
  · exact List.mem_append_left _ hv

theorem saveUser_length_update {db : List User} {u u2 : User}
    (hu : u ∈ db) (hid : u2.id = u.id) :
    (saveUser db u2).length = db.length := by
  rw [saveUser_update hu hid]
  exact List.length_map db _

theorem saveUser_fresh {db : List User} {u2 : User}
    (hfresh : ∀ v ∈ db, v.id ≠ u2.id) : saveUser db u2 = db ++ [u2] := by
  unfold saveUser
  rw [if_neg]
  intro hany
  obtain ⟨v, hv, hp⟩ := List.any_eq_true.mp hany
  exact hfresh v hv (by simpa using hp)

theorem WF_saveUser_update {db : List User} (hwf : WF db) {u u2 : User}
    (hu : u ∈ db) (hid : u2.id = u.id) (hem : u2.email = u.email) :
    WF (saveUser db u2) := by
  rw [saveUser_update hu hid]
  constructor
  · have heq : (db.map (fun v => if v.id == u2.id then u2 else v)).map
        (fun w => w.id) = db.map (fun v => v.id) := by
      rw [List.map_map]
      apply List.map_congr_left
      intro v _
      by_cases hc : v.id = u2.id
      · simp [Function.comp, hc, hid.symm.trans hc.symm]
      · simp [Function.comp, hc]
    rw [heq]
    exact hwf.1
  · have heq : (db.map (fun v => if v.id == u2.id then u2 else v)).map
        (fun w => w.email) = db.map (fun v => v.email) := by
      rw [List.map_map]
      apply List.map_congr_left
      intro v hv
      by_cases hc : v.id = u2.id
      · have hvu : v = u := id_inj hwf hv hu (hc.trans hid)
        subst hvu
        simp [Function.comp, hc, hem]
      · simp [Function.comp, hc]
    rw [heq]
    exact hwf.2

/-! ### Branch equations for the service operations -/

theorem verifyCode_nomatch {db : List User} {email code : String}
    (h : findByEmailAndCode db email code = none) :
    verifyCode db email code =
      ⟨.error (.conflict "Código de verificação inválido"), db, []⟩ := by
  unfold verifyCode
  rw [h]

theorem verifyCode_match {db : List User} {email code : String} {u : User}
    (h : findByEmailAndCode db email code = some u) :
    verifyCode db email code =
      ⟨.ok ⟨true, "Conta ativada com sucesso"⟩,
        saveUser db { u with isVerified := true, isActive := true,
                             verificationCode := none }, []⟩ := by
  unfold verifyCode
  rw [h]

theorem resetPassword_nomatch {db : List User} {email code newPassword : String}
    (h : findByEmailAndCode db email code = none) :
    resetPassword db email code newPassword =
      ⟨.error (.conflict "Código inválido"), db, []⟩ := by
  unfold resetPassword
  rw [h]

theorem resetPassword_match {db : List User} {email code newPassword : String}
    {u : User} (h : findByEmailAndCode db email code = some u) :
    resetPassword db email code newPassword =
      ⟨.ok ⟨true, "Senha atualizada com sucesso"⟩,
        saveUser db { u with password := newPassword,
                             verificationCode := some "" }, []⟩ := by
  unfold resetPassword
  rw [h]

theorem forgotPassword_match {db : List User} {email : String} {r : Nat}
    {u : User} (h : findByEmail db email = some u) :
    forgotPassword db email r =
      ⟨.ok ⟨true, "Enviamos um código de recuperação para seu email"⟩,
        saveUser db { u with verificationCode := some (genSixDigitCode r) },
        [.passwordReset email (genSixDigitCode r)]⟩ := by
  unfold forgotPassword
  rw [h]

theorem login_nomatch {db : List User} {email password : String}
    (h : findByEmail db email = none) :
    login db email password = .ok none := by
  unfold login
  rw [h]

theorem login_match {db : List User} {email password : String} {u : User}
    (h : findByEmail db email = some u) :
    login db email password =
      if !u.isVerified then
        .error (.conflict "Por favor, verifique seu email antes de fazer login")
      else .ok (some u) := by
  unfold login
  rw [h]

theorem register_email_taken {db : List User} {dto : RegisterDto} {r newId : Nat}
    {u : User} (h : findByEmail db dto.email = some u) :
    register db dto r newId =
      ⟨.error (.conflict "Email já cadastrado"), db, []⟩ := by
  unfold register
  rw [h]

theorem register_cpf_taken {db : List User} {dto : RegisterDto} {r newId : Nat}
    {u : User} (h1 : findByEmail db dto.email = none)
    (h2 : findByCpf db dto.cpf = some u) :
    register db dto r newId =
      ⟨.error (.conflict "CPF já cadastrado"), db, []⟩ := by
  unfold register
  rw [h1, h2]

/-- The record created by a successful register call. -/
def registeredUser (dto : RegisterDto) (r newId : Nat) : User :=
  { id := newId
    username := if dto.username == "" then firstNameToken dto.fullName
                else dto.username
    cpf := dto.cpf
    fullName := dto.fullName
    email := dto.email
    phone := dto.phone
    password := dto.password
    verificationCode := some (genSixDigitCode r)
    isVerified := false
    isActive := false
    lastLogin := none
    googleId := ""
    picture := ""
    isGoogleUser := false }

theorem register_free {db : List User} {dto : RegisterDto} {r newId : Nat}
    (h1 : findByEmail db dto.email = none) (h2 : findByCpf db dto.cpf = none) :
    register db dto r newId =
      ⟨.ok ⟨true, "Por favor, verifique seu email para ativar sua conta",
            dto.email⟩,
        saveUser db (registeredUser dto r newId),
        [.userConfirmation dto.email (genSixDigitCode r)]⟩ := by
  unfold register
  rw [h1, h2]
  rfl

/-- The record written for an existing user by validateGoogleUser. -/
def googleMergedUser (u : User) (picture googleId : String) (now : Nat) : User :=
  { u with
    lastLogin := some now
    picture := if picture == "" then u.picture else picture
    isGoogleUser := true
    googleId := if u.googleId == "" then googleId else u.googleId }

theorem validateGoogleUser_existing_eq {db : List User}
    {email fullName picture googleId : String} {now newId : Nat} {u : User}
    (h : findByEmail db email = some u) :
    validateGoogleUser db email fullName picture googleId now newId =
      ⟨.ok (googleMergedUser u picture googleId now),
        saveUser db (googleMergedUser u picture googleId now), []⟩ := by
  unfold validateGoogleUser
  rw [h]
  rfl

/-- The record created for a fresh email by validateGoogleUser. -/
def googleCreatedUser (email fullName picture googleId : String)
    (now newId : Nat) : User :=
  { id := newId
    username := (email.splitOn "@").headD ""
    cpf := ""
    fullName := fullName
    email := email
    phone := ""
    password := ""
    verificationCode := none
    isVerified := true
    isActive := true
    lastLogin := some now
    googleId := googleId
    picture := picture
    isGoogleUser := true }

theorem validateGoogleUser_new_eq {db : List User}
    {email fullName picture googleId : String} {now newId : Nat}
    (h : findByEmail db email = none) :
    validateGoogleUser db email fullName picture googleId now newId =
      ⟨.ok (googleCreatedUser email fullName picture googleId now newId),
        saveUser db (googleCreatedUser email fullName picture googleId now newId),
        [.googleWelcome email]⟩ := by
  unfold validateGoogleUser
  rw [h]
  rfl

theorem updateGoogleData_no_conflict {db : List User}
    {email cpf phone : String} {u : User}
    (h : findByEmail db email = some u)
    (hc : (if cpf != u.cpf then
             match findByCpf db cpf with
             | some other => other.id != u.id
             | none => false
           else false) = false) :
    updateGoogleData db email cpf phone =
      ⟨.ok ⟨true, "Datos actualizados correctamente"⟩,
        saveUser db { u with cpf := cpf, phone := phone }, []⟩ := by
  unfold updateGoogleData
  rw [h]
  simp only [hc]
  rfl

/-! ### Retry-loop lemmas -/

theorem uniqueLoop_all_collide (lookup : String → Option User)
    (cand : Nat → String) (errMsg : String) :
    ∀ (r a : Nat), (∀ i, a ≤ i → i < a + r → (lookup (cand i)).isSome) →
      uniqueLoop lookup cand errMsg a r = (.error (.conflict errMsg), r) := by
  intro r
  induction r with
  | zero => intro a _; rfl
  | succ n ih =>
    intro a h
    have ha : (lookup (cand a)).isSome := h a (Nat.le_refl a) (by omega)
    match hl : lookup (cand a) with
    | none => rw [hl] at ha; simp at ha
    | some w =>
      simp only [uniqueLoop, hl]
      rw [ih (a + 1) (fun i h1 h2 => h i (by omega) (by omega))]

theorem uniqueLoop_success (lookup : String → Option User)
    (cand : Nat → String) (errMsg : String) :
    ∀ (k r a : Nat), k < r →
      (∀ j, j < k → (lookup (cand (a + j))).isSome) →
      lookup (cand (a + k)) = none →
      uniqueLoop lookup cand errMsg a r = (.ok (cand (a + k)), k + 1) := by
  intro k
  induction k with
  | zero =>
    intro r a hr _ hnone
    match r, hr with
    | n + 1, _ =>
      rw [show a + 0 = a from rfl] at hnone
      simp only [uniqueLoop, hnone, Nat.add_zero]
  | succ k ih =>
    intro r a hr hall hnone
    match r, hr with
    | n + 1, hr =>
      have ha : (lookup (cand (a + 0))).isSome := hall 0 (by omega)
      rw [show a + 0 = a from rfl] at ha
      match hl : lookup (cand a) with
      | none =>
        rw [hl] at ha
        simp at ha
      | some w =>
        have hx : a + 1 + k = a + (k + 1) := by omega
        simp only [uniqueLoop, hl]
        rw [ih n (a + 1) (by omega)
          (fun j hj => by
            have := hall (j + 1) (by omega)
            rwa [show a + (j + 1) = a + 1 + j by omega] at this)
          (by rwa [hx]), hx]

theorem uniqueLoop_sound (lookup : String → Option User)
    (cand : Nat → String) (errMsg : String) :
    ∀ (r a : Nat) (s : String) (n : Nat),
      uniqueLoop lookup cand errMsg a r = (.ok s, n) → lookup s = none := by
  intro r
  induction r with
  | zero =>
    intro a s n h
    simp [uniqueLoop] at h
  | succ m ih =>
    intro a s n h
    match hl : lookup (cand a) with
    | none =>
      simp only [uniqueLoop, hl, Prod.mk.injEq, Except.ok.injEq] at h
      rw [← h.1]
      exact hl
    | some w =>
      simp only [uniqueLoop, hl] at h
      match hrec : uniqueLoop lookup cand errMsg (a + 1) m with
      | (res, cnt) =>
        rw [hrec] at h
        simp only [Prod.mk.injEq] at h
        exact ih (a + 1) s cnt (by rw [hrec, h.1])

/-! ### Concrete directory used by the witness theorems -/

/-- A pending (unverified) registration. -/
def wAlice : User :=
  { id := 1, username := "alice", cpf := "11111111111", fullName := "Alice A",
    email := "alice@x.com", phone := "+5511999990001", password := "pw1",
    verificationCode := some "123456", isVerified := false, isActive := false,
    lastLogin := none, googleId := "", picture := "", isGoogleUser := false }

/-- A verified, Google-linked account. -/
def wBob : User :=
  { id := 2, username := "bob", cpf := "22222222222", fullName := "Bob B",
    email := "bob@x.com", phone := "+5511999990002", password := "pw2",
    verificationCode := none, isVerified := true, isActive := true,
    lastLogin := none, googleId := "g-bob", picture := "", isGoogleUser := true }

def wDb : List User := [wAlice, wBob]

/-! ### Claim theorems -/

/-- C1: verifyCode looks the user up by the exact (email, verificationCode)
pair; when no user matches (wrong code, wrong email, or code already cleared)
it fails with the Conflict error and leaves every user record unchanged; when
a user matches, it sets isVerified and isActive to true, clears
verificationCode to null and persists that record, leaving all other records
unchanged. -/
theorem C1_verifyCode_correct (db : List User) (email code : String)
    (hwf : WF db) :
    ((∀ u ∈ db, ¬(u.email = email ∧ u.verificationCode = some code)) →
      verifyCode db email code =
        ⟨.error (.conflict "Código de verificação inválido"), db, []⟩)
    ∧ (∀ u ∈ db, u.email = email → u.verificationCode = some code →
        (verifyCode db email code).result =
          .ok ⟨true, "Conta ativada com sucesso"⟩
        ∧ { u with isVerified := true, isActive := true,
                   verificationCode := none } ∈ (verifyCode db email code).db
        ∧ (∀ v ∈ db, v.id ≠ u.id → v ∈ (verifyCode db email code).db)
        ∧ (verifyCode db email code).db.length = db.length
        ∧ (verifyCode db email code).sent = []) := by
  constructor
  · intro h
    exact verifyCode_nomatch (findByEmailAndCode_none h)
  · intro u hu he hc
    rw [verifyCode_match (findByEmailAndCode_some hwf hu he hc)]
    refine ⟨rfl, ?_, ?_, ?_, rfl⟩
    · exact mem_saveUser_self hu rfl
    · intro v hv hne
      exact mem_saveUser_other hv hne
    · exact saveUser_length_update hu rfl

theorem C1_verifyCode_correct_witness :
    verifyCode wDb "alice@x.com" "000000" =
      ⟨.error (.conflict "Código de verificação inválido"), wDb, []⟩
    ∧ { wAlice with isVerified := true, isActive := true,
                    verificationCode := none }
        ∈ (verifyCode wDb "alice@x.com" "123456").db :=
  ⟨(C1_verifyCode_correct wDb "alice@x.com" "000000" (by decide)).1 (by decide),
   ((C1_verifyCode_correct wDb "alice@x.com" "123456" (by decide)).2 wAlice
     (by decide) rfl rfl).2.1⟩

/-- C7: login returns null (an explicit not-found value, not a throw) when no
user has the email; throws Conflict when the user exists but is unverified;
returns the user otherwise; hence an unverified user is never the value of a
successful login. -/
theorem C7_login_contract (db : List User) (email p : String) (hwf : WF db) :
    ((∀ u ∈ db, u.email ≠ email) → login db email p = .ok none)
    ∧ (∀ u ∈ db, u.email = email → u.isVerified = false →
        login db email p =
          .error (.conflict "Por favor, verifique seu email antes de fazer login"))
    ∧ (∀ u ∈ db, u.email = email → u.isVerified = true →
        login db email p = .ok (some u))
    ∧ (∀ u : User, login db email p = .ok (some u) → u.isVerified = true) := by
  refine ⟨?_, ?_, ?_, ?_⟩
  · intro h
    exact login_nomatch (findByEmail_none h)
  · intro u hu he hv
    rw [login_match (findByEmail_some hwf hu he), hv]
    rfl
  · intro u hu he hv
    rw [login_match (findByEmail_some hwf hu he), hv]
    rfl
  · intro u hlog
    match hf : findByEmail db email with
    | none =>
      rw [login_nomatch hf] at hlog
      simp at hlog
    | some v =>
      rw [login_match hf] at hlog
      match hbv : v.isVerified with
      | true =>
        rw [hbv] at hlog
        simp at hlog
        rw [← hlog]
        exact hbv
      | false =>
        rw [hbv] at hlog
        simp at hlog

theorem C7_login_contract_witness :
    login wDb "nobody@x.com" "p" = .ok none
    ∧ login wDb "alice@x.com" "p" =
        .error (.conflict "Por favor, verifique seu email antes de fazer login")
    ∧ login wDb "bob@x.com" "p" = .ok (some wBob) :=
  ⟨(C7_login_contract wDb "nobody@x.com" "p" (by decide)).1 (by decide),
   (C7_login_contract wDb "alice@x.com" "p" (by decide)).2.1 wAlice
     (by decide) rfl rfl,
   (C7_login_contract wDb "bob@x.com" "p" (by decide)).2.2.1 wBob
     (by decide) rfl rfl⟩

/-- C9 (implicit): the result of login is completely independent of the
password argument, and in particular a verified user is authenticated even
when the supplied password differs from the stored one. -/
theorem C9_login_ignores_password (db : List User) (email p1 p2 : String) :
    login db email p1 = login db email p2
    ∧ (WF db → ∀ u ∈ db, u.email = email → u.isVerified = true →
        u.password ≠ p1 → login db email p1 = .ok (some u)) := by
  constructor
  · rfl
  · intro hwf u hu he hv _
    rw [login_match (findByEmail_some hwf hu he), hv]
    rfl

theorem C9_login_ignores_password_witness :
    login wDb "bob@x.com" "wrong" = login wDb "bob@x.com" "other"
    ∧ login wDb "bob@x.com" "wrong" = .ok (some wBob) :=
  ⟨(C9_login_ignores_password wDb "bob@x.com" "wrong" "other").1,
   (C9_login_ignores_password wDb "bob@x.com" "wrong" "other").2
     (by decide) wBob (by decide) rfl rfl (by decide)⟩

/-- C3: register rejects a taken email first, then a taken cpf, each with a
Conflict error and no state change; otherwise it creates exactly one user,
unverified and inactive, whose verificationCode is the string of a uniform
draw from 100000..999999 — hence a 6-digit decimal string — and sends exactly
one confirmation notification carrying that code. -/
theorem C3_register_correct (db : List User) (dto : RegisterDto)
    (r newId : Nat) (hr : r < 900000) (hfresh : ∀ u ∈ db, u.id ≠ newId) :
    ((∃ u ∈ db, u.email = dto.email) →
      register db dto r newId =
        ⟨.error (.conflict "Email já cadastrado"), db, []⟩)
    ∧ ((∀ u ∈ db, u.email ≠ dto.email) → (∃ u ∈ db, u.cpf = dto.cpf) →
      register db dto r newId =
        ⟨.error (.conflict "CPF já cadastrado"), db, []⟩)
    ∧ ((∀ u ∈ db, u.email ≠ dto.email) → (∀ u ∈ db, u.cpf ≠ dto.cpf) →
        (register db dto r newId).result =
          .ok ⟨true, "Por favor, verifique seu email para ativar sua conta",
               dto.email⟩
        ∧ (register db dto r newId).db = db ++ [registeredUser dto r newId]
        ∧ (register db dto r newId).db.length = db.length + 1
        ∧ (registeredUser dto r newId).isVerified = false
        ∧ (registeredUser dto r newId).isActive = false
        ∧ (registeredUser dto r newId).verificationCode =
            some (Nat.repr (100000 + r))
        ∧ 100000 ≤ 100000 + r
        ∧ 100000 + r ≤ 999999
        ∧ isSixDigitString (genSixDigitCode r) = true
        ∧ (register db dto r newId).sent =
            [.userConfirmation dto.email (genSixDigitCode r)]) := by
  refine ⟨?_, ?_, ?_⟩
  · intro ⟨u, hu, he⟩
    obtain ⟨v, hfind, _, _⟩ :=
      find_first (fun w => w.email == dto.email) db ⟨u, hu, by simp [he]⟩
    exact register_email_taken hfind
  · intro hem ⟨u, hu, hc⟩
    obtain ⟨v, hfind, _, _⟩ :=
      find_first (fun w => w.cpf == dto.cpf) db ⟨u, hu, by simp [hc]⟩
    exact register_cpf_taken (findByEmail_none hem) hfind
  · intro hem hcp
    rw [register_free (findByEmail_none hem) (findByCpf_none hcp)]
    have hsave : saveUser db (registeredUser dto r newId) =
        db ++ [registeredUser dto r newId] := saveUser_fresh hfresh
    refine ⟨rfl, hsave, ?_, rfl, rfl, rfl, by omega, by omega, ?_, rfl⟩
    · rw [hsave, List.length_append]
      rfl
    · exact isSixDigitString_repr (100000 + r) (by omega) (by omega)

/-- A registration input on a fresh email and cpf. -/
def wDtoCarol : RegisterDto :=
  { username := "", email := "carol@x.com", password := "pw3",
    cpf := "33333333333", fullName := "Carol C", phone := "+5511999990003" }

theorem C3_register_correct_witness :
    (register wDb wDtoCarol 0 3).result =
      .ok ⟨true, "Por favor, verifique seu email para ativar sua conta",
           "carol@x.com"⟩
    ∧ (register wDb wDtoCarol 0 3).db.length = wDb.length + 1
    ∧ isSixDigitString (genSixDigitCode 0) = true
    ∧ register wDb { wDtoCarol with email := "alice@x.com" } 0 3 =
        ⟨.error (.conflict "Email já cadastrado"), wDb, []⟩ :=
  have h := (C3_register_correct wDb wDtoCarol 0 3 (by decide) (by decide)).2.2
    (by decide) (by decide)
  ⟨h.1, h.2.2.1, h.2.2.2.2.2.2.2.2.1,
   (C3_register_correct wDb { wDtoCarol with email := "alice@x.com" } 0 3
     (by decide) (by decide)).1 ⟨wAlice, by decide, rfl⟩⟩

/-- C4: for both unique-value generators, when every directory lookup reports
a collision the loop performs exactly 10 candidate lookups (no 11th) and then
fails with the Conflict error; when some attempt's candidate is absent, the
first such candidate is returned after exactly that many lookups; and any
returned value is certainly absent from the directory (never a silent
non-unique fallback). -/
theorem C4_generators_bounded (db : List User)
    (rndC : Nat → Nat × Nat × Nat × Nat) (rndP : Nat → Nat) :
    ((∀ i, i < 10 → (findByCpf db (cpfCandidate (rndC i))).isSome) →
      generateUniqueCpf db rndC =
        (.error (.conflict
          "No se pudo generar un CPF único después de varios intentos"), 10))
    ∧ ((∀ i, i < 10 → (findByPhone db (phoneCandidate (rndP i))).isSome) →
      generateUniquePhone db rndP =
        (.error (.conflict
          "No se pudo generar un teléfono único después de varios intentos"), 10))
    ∧ (∀ k, k < 10 →
        (∀ j, j < k → (findByCpf db (cpfCandidate (rndC j))).isSome) →
        findByCpf db (cpfCandidate (rndC k)) = none →
        generateUniqueCpf db rndC = (.ok (cpfCandidate (rndC k)), k + 1))
    ∧ (∀ k, k < 10 →
        (∀ j, j < k → (findByPhone db (phoneCandidate (rndP j))).isSome) →
        findByPhone db (phoneCandidate (rndP k)) = none →
        generateUniquePhone db rndP = (.ok (phoneCandidate (rndP k)), k + 1))
    ∧ (∀ s n, generateUniqueCpf db rndC = (.ok s, n) → findByCpf db s = none)
    ∧ (∀ s n, generateUniquePhone db rndP = (.ok s, n) →
        findByPhone db s = none) := by
  refine ⟨?_, ?_, ?_, ?_, ?_, ?_⟩
  · intro h
    exact uniqueLoop_all_collide _ _ _ 10 0 (fun i _ h2 => h i (by omega))
  · intro h
    exact uniqueLoop_all_collide _ _ _ 10 0 (fun i _ h2 => h i (by omega))
  · intro k hk hall hnone
    have := uniqueLoop_success (findByCpf db) (fun i => cpfCandidate (rndC i))
      "No se pudo generar un CPF único después de varios intentos" k 10 0 hk
      (fun j hj => by simpa [Nat.zero_add] using hall j hj)
      (by simpa [Nat.zero_add] using hnone)
    simpa [Nat.zero_add] using this
  · intro k hk hall hnone
    have := uniqueLoop_success (findByPhone db)
      (fun i => phoneCandidate (rndP i))
      "No se pudo generar un teléfono único después de varios intentos" k 10 0 hk
      (fun j hj => by simpa [Nat.zero_add] using hall j hj)
      (by simpa [Nat.zero_add] using hnone)
    simpa [Nat.zero_add] using this
  · intro s n h
    exact uniqueLoop_sound _ _ _ 10 0 s n h
  · intro s n h
    exact uniqueLoop_sound _ _ _ 10 0 s n h

/-- A user occupying the candidate values produced by the constant-zero
random stream, forcing every lookup to collide. -/
def wColl : User :=
  { id := 9, username := "coll", cpf := "00000000000", fullName := "Coll",
    email := "coll@x.com", phone := "+5510000000000", password := "pw",
    verificationCode := none, isVerified := true, isActive := true,
    lastLogin := none, googleId := "", picture := "", isGoogleUser := false }

theorem C4_generators_bounded_witness :
    generateUniqueCpf [wColl] (fun _ => (0, 0, 0, 0)) =
      (.error (.conflict
        "No se pudo generar un CPF único después de varios intentos"), 10)
    ∧ generateUniquePhone [wColl] (fun _ => 0) =
      (.error (.conflict
        "No se pudo generar un teléfono único después de varios intentos"), 10)
    ∧ generateUniqueCpf [] (fun _ => (0, 0, 0, 0)) =
        (.ok (cpfCandidate (0, 0, 0, 0)), 1)
    ∧ generateUniquePhone [] (fun _ => 0) = (.ok (phoneCandidate 0), 1) :=
  ⟨(C4_generators_bounded [wColl] (fun _ => (0, 0, 0, 0)) (fun _ => 0)).1
     (by decide),
   (C4_generators_bounded [wColl] (fun _ => (0, 0, 0, 0)) (fun _ => 0)).2.1
     (by decide),
   (C4_generators_bounded [] (fun _ => (0, 0, 0, 0)) (fun _ => 0)).2.2.1 0
     (by decide) (fun j hj => absurd hj (Nat.not_lt_zero j)) rfl,
   (C4_generators_bounded [] (fun _ => (0, 0, 0, 0)) (fun _ => 0)).2.2.2.1 0
     (by decide) (fun j hj => absurd hj (Nat.not_lt_zero j)) rfl⟩

/-- C2: OAuth reconciliation on an email that already exists creates no second
record and updates only lastLogin, picture (only when the incoming value is
non-empty), isGoogleUser and googleId (only when the stored one is empty;
an existing non-empty googleId survives a different incoming one); taxId,
phone and password are untouched, other records are unchanged, and no
notification is sent. -/
theorem C2_validateGoogle_existing (db : List User)
    (email fullName picture googleId : String) (now newId : Nat)
    (hwf : WF db) (u : User) (hu : u ∈ db) (he : u.email = email) :
    (validateGoogleUser db email fullName picture googleId now newId).db.length
        = db.length
    ∧ (validateGoogleUser db email fullName picture googleId now newId).sent
        = []
    ∧ { u with lastLogin := some now,
               picture := if picture = "" then u.picture else picture,
               isGoogleUser := true,
               googleId := if u.googleId = "" then googleId else u.googleId }
        ∈ (validateGoogleUser db email fullName picture googleId now newId).db
    ∧ (∀ v ∈ db, v.id ≠ u.id →
        v ∈ (validateGoogleUser db email fullName picture googleId now newId).db) := by
  rw [validateGoogleUser_existing_eq (findByEmail_some hwf hu he)]
  refine ⟨saveUser_length_update hu rfl, rfl, ?_, ?_⟩
  · have hrec : ({ u with
                   lastLogin := some now,
                   picture := if picture = "" then u.picture else picture,
                   isGoogleUser := true,
                   googleId := if u.googleId = "" then googleId
                               else u.googleId } : User)
        = googleMergedUser u picture googleId now := by
      unfold googleMergedUser
      by_cases hp : picture = "" <;> by_cases hg : u.googleId = "" <;>
        simp [hp, hg]
    rw [hrec]
    exact mem_saveUser_self hu rfl
  · intro v hv hne
    exact mem_saveUser_other hv hne

theorem C2_validateGoogle_existing_witness :
    (validateGoogleUser wDb "bob@x.com" "Bob Google" "" "g-other" 77 9).db.length
        = wDb.length
    ∧ (validateGoogleUser wDb "bob@x.com" "Bob Google" "" "g-other" 77 9).sent
        = []
    ∧ { wBob with lastLogin := some 77, picture := wBob.picture,
                  isGoogleUser := true, googleId := "g-bob" }
        ∈ (validateGoogleUser wDb "bob@x.com" "Bob Google" "" "g-other" 77 9).db :=
  have h := C2_validateGoogle_existing wDb "bob@x.com" "Bob Google" "" "g-other"
    77 9 (by decide) wBob (by decide) rfl
  ⟨h.1, h.2.1, h.2.2.1⟩

/-- C6: OAuth reconciliation on a novel email creates exactly one new record
with empty taxId, phone and password, isGoogleUser, isVerified and isActive
all true, lastLogin now, username the email local-part, and sends exactly one
welcome notification; existing records are untouched. -/
theorem C6_validateGoogle_new (db : List User)
    (email fullName picture googleId : String) (now newId : Nat)
    (hnew : ∀ u ∈ db, u.email ≠ email) (hfresh : ∀ u ∈ db, u.id ≠ newId) :
    (validateGoogleUser db email fullName picture googleId now newId).db.length
        = db.length + 1
    ∧ (validateGoogleUser db email fullName picture googleId now newId).sent
        = [.googleWelcome email]
    ∧ (∃ w ∈ (validateGoogleUser db email fullName picture googleId now newId).db,
        w.id = newId ∧ w.email = email ∧ w.cpf = "" ∧ w.phone = ""
        ∧ w.password = "" ∧ w.isGoogleUser = true ∧ w.isVerified = true
        ∧ w.isActive = true ∧ w.lastLogin = some now
        ∧ w.username = (email.splitOn "@").headD "")
    ∧ (∀ v ∈ db,
        v ∈ (validateGoogleUser db email fullName picture googleId now newId).db) := by
  rw [validateGoogleUser_new_eq (findByEmail_none hnew)]
  have hsave : saveUser db (googleCreatedUser email fullName picture googleId now newId)
      = db ++ [googleCreatedUser email fullName picture googleId now newId] :=
    saveUser_fresh hfresh
  refine ⟨?_, rfl, ?_, ?_⟩
  · simp only [hsave, List.length_append]
    rfl
  · refine ⟨googleCreatedUser email fullName picture googleId now newId, ?_,
      rfl, rfl, rfl, rfl, rfl, rfl, rfl, rfl, rfl, rfl⟩
    rw [hsave]
    exact List.mem_append_right _ (List.mem_singleton.mpr rfl)
  · intro v hv
    rw [hsave]
    exact List.mem_append_left _ hv

theorem C6_validateGoogle_new_witness :
    (validateGoogleUser wDb "carol@x.com" "Carol C" "pic" "g-carol" 88 3).db.length
        = wDb.length + 1
    ∧ (validateGoogleUser wDb "carol@x.com" "Carol C" "pic" "g-carol" 88 3).sent
        = [.googleWelcome "carol@x.com"]
    ∧ (∃ w ∈ (validateGoogleUser wDb "carol@x.com" "Carol C" "pic" "g-carol" 88 3).db,
        w.id = 3 ∧ w.email = "carol@x.com" ∧ w.cpf = "" ∧ w.phone = ""
        ∧ w.password = "" ∧ w.isGoogleUser = true ∧ w.isVerified = true
        ∧ w.isActive = true ∧ w.lastLogin = some 88
        ∧ w.username = ("carol@x.com".splitOn "@").headD "") :=
  have h := C6_validateGoogle_new wDb "carol@x.com" "Carol C" "pic" "g-carol"
    88 3 (by decide) (by decide)
  ⟨h.1, h.2.1, h.2.2.1⟩

/-- C5: resetPassword looks the user up by the exact (email, verificationCode)
pair; no match fails with the Conflict error and changes no state; a match
overwrites password verbatim and sets verificationCode to the empty string
(not null); consequently forgotPassword followed by resetPassword with the
issued code leaves the user with the new password and verificationCode
equal to the empty string. -/
theorem C5_resetPassword_correct (db : List User)
    (email code newPassword : String) (r : Nat) (hwf : WF db) :
    ((∀ u ∈ db, ¬(u.email = email ∧ u.verificationCode = some code)) →
      resetPassword db email code newPassword =
        ⟨.error (.conflict "Código inválido"), db, []⟩)
    ∧ (∀ u ∈ db, u.email = email → u.verificationCode = some code →
        (resetPassword db email code newPassword).result =
          .ok ⟨true, "Senha atualizada com sucesso"⟩
        ∧ { u with password := newPassword, verificationCode := some "" }
            ∈ (resetPassword db email code newPassword).db
        ∧ (∀ v ∈ db, v.id ≠ u.id →
            v ∈ (resetPassword db email code newPassword).db)
        ∧ (resetPassword db email code newPassword).db.length = db.length)
    ∧ (∀ u ∈ db, u.email = email →
        (forgotPassword db email r).result =
          .ok ⟨true, "Enviamos um código de recuperação para seu email"⟩
        ∧ (resetPassword (forgotPassword db email r).db email
            (genSixDigitCode r) newPassword).result =
          .ok ⟨true, "Senha atualizada com sucesso"⟩
        ∧ { u with password := newPassword, verificationCode := some "" }
            ∈ (resetPassword (forgotPassword db email r).db email
                (genSixDigitCode r) newPassword).db) := by
  refine ⟨?_, ?_, ?_⟩
  · intro h
    exact resetPassword_nomatch (findByEmailAndCode_none h)
  · intro u hu he hc
    rw [resetPassword_match (findByEmailAndCode_some hwf hu he hc)]
    refine ⟨rfl, ?_, ?_, ?_⟩
    · exact mem_saveUser_self hu rfl
    · intro v hv hne
      exact mem_saveUser_other hv hne
    · exact saveUser_length_update hu rfl
  · intro u hu he
    have hforgot := @forgotPassword_match db email r u (findByEmail_some hwf hu he)
    have hwf1 : WF (saveUser db
        { u with verificationCode := some (genSixDigitCode r) }) :=
      WF_saveUser_update hwf hu rfl rfl
    have hu1 : ({ u with verificationCode := some (genSixDigitCode r) } : User)
        ∈ saveUser db { u with verificationCode := some (genSixDigitCode r) } :=
      mem_saveUser_self hu rfl
    have hreset := @resetPassword_match _ _ _ newPassword _
      (findByEmailAndCode_some hwf1 hu1 he rfl)
    refine ⟨?_, ?_, ?_⟩
    · rw [hforgot]
    · rw [hforgot]
      show (resetPassword
        (saveUser db { u with verificationCode := some (genSixDigitCode r) })
        email (genSixDigitCode r) newPassword).result = _
      rw [hreset]
    · rw [hforgot]
      show _ ∈ (resetPassword
        (saveUser db { u with verificationCode := some (genSixDigitCode r) })
        email (genSixDigitCode r) newPassword).db
      rw [hreset]
      exact mem_saveUser_self hu1 rfl

theorem C5_resetPassword_correct_witness :
    resetPassword wDb "alice@x.com" "999999" "np" =
      ⟨.error (.conflict "Código inválido"), wDb, []⟩
    ∧ { wAlice with password := "np", verificationCode := some "" }
        ∈ (resetPassword wDb "alice@x.com" "123456" "np").db
    ∧ { wAlice with password := "np2", verificationCode := some "" }
        ∈ (resetPassword (forgotPassword wDb "alice@x.com" 42).db "alice@x.com"
            (genSixDigitCode 42) "np2").db :=
  ⟨(C5_resetPassword_correct wDb "alice@x.com" "999999" "np" 0 (by decide)).1
     (by decide),
   ((C5_resetPassword_correct wDb "alice@x.com" "123456" "np" 0
     (by decide)).2.1 wAlice (by decide) rfl rfl).2.1,
   ((C5_resetPassword_correct wDb "alice@x.com" "irrelevant" "np2" 42
     (by decide)).2.2 wAlice (by decide) rfl).2.2⟩

/-- C10 (implicit): a successful resetPassword leaves verificationCode equal
to the empty string, and a subsequent resetPassword with the empty string as
the code matches that sentinel in the exact (email, verificationCode) lookup
and succeeds, overwriting the password again although no fresh code was
issued. -/
theorem C10_reset_empty_code_replay (db : List User)
    (email code p1 p2 : String) (hwf : WF db) (u : User) (hu : u ∈ db)
    (he : u.email = email) (hc : u.verificationCode = some code) :
    (resetPassword db email code p1).result =
      .ok ⟨true, "Senha atualizada com sucesso"⟩
    ∧ { u with password := p1, verificationCode := some "" }
        ∈ (resetPassword db email code p1).db
    ∧ (resetPassword (resetPassword db email code p1).db email "" p2).result =
      .ok ⟨true, "Senha atualizada com sucesso"⟩
    ∧ { u with password := p2, verificationCode := some "" }
        ∈ (resetPassword (resetPassword db email code p1).db email "" p2).db := by
  have hfirst := @resetPassword_match db email code p1 u
    (findByEmailAndCode_some hwf hu he hc)
  have hwf1 : WF (saveUser db
      { u with password := p1, verificationCode := some "" }) :=
    WF_saveUser_update hwf hu rfl rfl
  have hu1 : ({ u with password := p1, verificationCode := some "" } : User)
      ∈ saveUser db { u with password := p1, verificationCode := some "" } :=
    mem_saveUser_self hu rfl
  have hsecond := @resetPassword_match _ _ _ p2 _
    (findByEmailAndCode_some hwf1 hu1 he rfl)
  refine ⟨?_, ?_, ?_, ?_⟩
  · rw [hfirst]
  · rw [hfirst]
    exact hu1
  · rw [hfirst]
    show (resetPassword
      (saveUser db { u with password := p1, verificationCode := some "" })
      email "" p2).result = _
    rw [hsecond]
  · rw [hfirst]
    show _ ∈ (resetPassword
      (saveUser db { u with password := p1, verificationCode := some "" })
      email "" p2).db
    rw [hsecond]
    exact mem_saveUser_self hu1 rfl

theorem C10_reset_empty_code_replay_witness :
    (resetPassword wDb "alice@x.com" "123456" "first").result =
      .ok ⟨true, "Senha atualizada com sucesso"⟩
    ∧ (resetPassword (resetPassword wDb "alice@x.com" "123456" "first").db
        "alice@x.com" "" "second").result =
      .ok ⟨true, "Senha atualizada com sucesso"⟩
    ∧ { wAlice with password := "second", verificationCode := some "" }
        ∈ (resetPassword (resetPassword wDb "alice@x.com" "123456" "first").db
            "alice@x.com" "" "second").db :=
  have h := C10_reset_empty_code_replay wDb "alice@x.com" "123456" "first"
    "second" (by decide) wAlice (by decide) rfl rfl
  ⟨h.1, h.2.2.1, h.2.2.2⟩

/-- Two registration inputs with distinct emails and cpfs but the same
non-empty phone. -/
def wDtoDup1 : RegisterDto :=
  { username := "", email := "dup1@x.com", password := "p1",
    cpf := "44444444444", fullName := "Dup One", phone := "+5511888880000" }

def wDtoDup2 : RegisterDto :=
  { username := "", email := "dup2@x.com", password := "p2",
    cpf := "55555555555", fullName := "Dup Two", phone := "+5511888880000" }

def wDbDup1 : List User := (register [] wDtoDup1 0 1).db

def wDbDup2 : List User := (register wDbDup1 wDtoDup2 1 2).db

/-- C8 counterexample: starting from the empty directory, two register calls
with the same non-empty phone but distinct emails and cpfs both succeed, so a
reachable directory state holds two distinct users with the same non-empty
phone — phone uniqueness is not an invariant preserved by register. -/
theorem C8_phone_unique_counterexample :
    (register [] wDtoDup1 0 1).result =
      .ok ⟨true, "Por favor, verifique seu email para ativar sua conta",
           "dup1@x.com"⟩
    ∧ (register wDbDup1 wDtoDup2 1 2).result =
      .ok ⟨true, "Por favor, verifique seu email para ativar sua conta",
           "dup2@x.com"⟩
    ∧ ¬ PhoneUniqueOK wDbDup2 := by
  refine ⟨rfl, rfl, ?_⟩
  decide

/-- C8 amended: phone uniqueness is not enforced anywhere — the entity
declares no uniqueness constraint on phone (only cpf and email), register
persists a caller-supplied phone already held by another user without any
phone check, and updateGoogleData likewise overwrites phone with any value
without a phone check — so duplicate non-empty phones are reachable; only
generateUniquePhone consults the directory about phones. -/
theorem C8_phone_uniqueness_not_enforced (db : List User) (dto : RegisterDto)
    (r newId : Nat) (w : User) (hw : w ∈ db)
    (hemail : ∀ u ∈ db, u.email ≠ dto.email)
    (hcpf : ∀ u ∈ db, u.cpf ≠ dto.cpf)
    (hph : w.phone = dto.phone) (hne : dto.phone ≠ "")
    (hfresh : ∀ u ∈ db, u.id ≠ newId) :
    ("phone" ∉ uniqueColumns)
    ∧ (register db dto r newId).result =
        .ok ⟨true, "Por favor, verifique seu email para ativar sua conta",
             dto.email⟩
    ∧ registeredUser dto r newId ∈ (register db dto r newId).db
    ∧ w ∈ (register db dto r newId).db
    ∧ (registeredUser dto r newId).phone = dto.phone
    ∧ ¬ PhoneUniqueOK (register db dto r newId).db
    ∧ (∀ (db2 : List User) (u2 : User) (p : String), WF db2 → u2 ∈ db2 →
        (updateGoogleData db2 u2.email u2.cpf p).result =
          .ok ⟨true, "Datos actualizados correctamente"⟩
        ∧ { u2 with phone := p } ∈ (updateGoogleData db2 u2.email u2.cpf p).db) := by
  have hreg := @register_free db dto r newId (findByEmail_none hemail)
    (findByCpf_none hcpf)
  have hsave : saveUser db (registeredUser dto r newId) =
      db ++ [registeredUser dto r newId] := saveUser_fresh hfresh
  have hwid : w.id ≠ newId := hfresh w hw
  refine ⟨by decide, ?_, ?_, ?_, rfl, ?_, ?_⟩
  · rw [hreg]
  · rw [hreg]
    show _ ∈ saveUser db (registeredUser dto r newId)
    rw [hsave]
    exact List.mem_append_right _ (List.mem_singleton.mpr rfl)
  · rw [hreg]
    show _ ∈ saveUser db (registeredUser dto r newId)
    rw [hsave]
    exact List.mem_append_left _ hw
  · rw [hreg]
    intro hOK
    have h1 : registeredUser dto r newId ∈ saveUser db (registeredUser dto r newId) := by
      rw [hsave]
      exact List.mem_append_right _ (List.mem_singleton.mpr rfl)
    have h2 : w ∈ saveUser db (registeredUser dto r newId) := by
      rw [hsave]
      exact List.mem_append_left _ hw
    have h3 : (registeredUser dto r newId).id ≠ w.id := fun h => hwid h.symm
    have h4 : (registeredUser dto r newId).phone ≠ "" := hne
    exact hOK (registeredUser dto r newId) h1 w h2 h3 h4 hph.symm
  · intro db2 u2 p hwf2 hu2
    have hfind := findByEmail_some hwf2 hu2 rfl
    have hupd := @updateGoogleData_no_conflict db2 u2.email u2.cpf p u2 hfind
      (by simp)
    constructor
    · rw [hupd]
    · rw [hupd]
      exact mem_saveUser_self hu2 rfl

theorem C8_phone_uniqueness_not_enforced_witness :
    (register wDbDup1 wDtoDup2 1 2).result =
      .ok ⟨true, "Por favor, verifique seu email para ativar sua conta",
           "dup2@x.com"⟩
    ∧ ¬ PhoneUniqueOK (register wDbDup1 wDtoDup2 1 2).db
    ∧ (updateGoogleData wDb wBob.email wBob.cpf wAlice.phone).result =
        .ok ⟨true, "Datos actualizados correctamente"⟩
    ∧ { wBob with phone := wAlice.phone }
        ∈ (updateGoogleData wDb wBob.email wBob.cpf wAlice.phone).db :=
  have h := C8_phone_uniqueness_not_enforced wDbDup1 wDtoDup2 1 2
    (registeredUser wDtoDup1 0 1) (List.mem_cons_self _ _) (by decide)
    (by decide) rfl (by decide) (by decide)
  have h2 := h.2.2.2.2.2.2 wDb wBob wAlice.phone (by decide) (by decide)
  ⟨h.2.1, h.2.2.2.2.2.1, h2.1, h2.2⟩

end BSS
